import Mathlib

/-!
Shallow embedding of the Ride Management System (an azle canister).
The repository contains two near-duplicate implementation variants:
one that validates payloads and caches the average rating on the ride
record (namespace `Cached`, from src/src/index.ts), and one that skips
validation and recomputes the average rating by a full scan
(namespace `Scan`, from src/unnamed/part_001).
The StableBTreeMap collaborator is modelled as an association list with
point lookup, replacing insert, and remove-returning-the-value.
Nondeterministic inputs of the runtime (uuidv4 identifiers, ic.time
timestamps) are passed as explicit arguments.
-/

namespace RideMS

/-- Point lookup in the association-list model of a StableBTreeMap
(`storage.get(key)`). -/
def mapLookup {V : Type} : List (String × V) → String → Option V
  | [], _ => none
  | (k', v) :: t, k => if k' = k then some v else mapLookup t k

/-- Insert in the association-list model (`storage.insert(key, value)`):
replaces an existing binding for the key, otherwise adds a new one. -/
def mapInsert {V : Type} : List (String × V) → String → V → List (String × V)
  | [], k, v => [(k, v)]
  | (k', v') :: t, k, v =>
    if k' = k then (k, v) :: t else (k', v') :: mapInsert t k v

/-- Remove in the association-list model (`storage.remove(key)`):
returns the removed value, if any, together with the remaining map. -/
def mapRemove {V : Type} : List (String × V) → String → Option V × List (String × V)
  | [], _ => (none, [])
  | (k', v') :: t, k =>
    if k' = k then (some v', t)
    else
      let r := mapRemove t k
      (r.1, (k', v') :: r.2)

/-- All stored values (`storage.values()`). -/
def mapValues {V : Type} (m : List (String × V)) : List V := m.map Prod.snd

/-- All stored keys of the association-list model. -/
def mapKeys {V : Type} (m : List (String × V)) : List String := m.map Prod.fst

/-- RidePayload: caller-supplied ride fields. -/
structure RidePayload where
  providerId : String
  date : String
  startTime : String
  endTime : String
  startLocation : String
  endLocation : String
  availableSeats : Int
  description : String
deriving DecidableEq

/-- RideReviewPayload: caller-supplied review fields. -/
structure RideReviewPayload where
  rideId : String
  userId : String
  rating : ℚ
  comment : String
deriving DecidableEq

/-- RideReviewRecord: a persisted ride review. -/
structure RideReviewRecord where
  id : String
  rideId : String
  userId : String
  rating : ℚ
  comment : String
  createdAt : Nat
deriving DecidableEq

namespace Scan

/-- RideRecord of the scan variant (src/unnamed/part_001): no cached
average-rating field. -/
structure RideRecord where
  id : String
  providerId : String
  date : String
  startTime : String
  endTime : String
  startLocation : String
  endLocation : String
  availableSeats : Int
  description : String
  createdAt : Nat
  updatedAt : Option Nat
deriving DecidableEq

/-- The two stores of the scan variant. -/
structure State where
  rideStorage : List (String × RideRecord)
  rideReviewStorage : List (String × RideReviewRecord)
deriving DecidableEq

/-- Well-formedness of reachable states: every ride is stored under its
own id (addRide and all updates insert at the record's id). -/
def State.wf (st : State) : Prop :=
  ∀ pr ∈ st.rideStorage, pr.2.id = pr.1

/-- addRideReview of the scan variant: no validation, insert, return. -/
def addRideReview (newId : String) (now : Nat) (payload : RideReviewPayload)
    (st : State) : Except String RideReviewRecord × State :=
  let review : RideReviewRecord :=
    { id := newId
      rideId := payload.rideId
      userId := payload.userId
      rating := payload.rating
      comment := payload.comment
      createdAt := now }
  (Except.ok review,
    { st with rideReviewStorage := mapInsert st.rideReviewStorage review.id review })

/-- getRideReviews: linear scan of the review store by rideId. -/
def getRideReviews (rideId : String) (st : State) :
    Except String (List RideReviewRecord) × State :=
  let reviews := (mapValues st.rideReviewStorage).filter (fun review => review.rideId == rideId)
  (Except.ok reviews, st)

/-- getRideAverageRating of the scan variant: recompute from the review
scan on every call. -/
def getRideAverageRating (rideId : String) (st : State) : Except String ℚ × State :=
  let reviews := (mapValues st.rideReviewStorage).filter (fun review => review.rideId == rideId)
  if reviews.length = 0 then
    (Except.error "No reviews found for the ride", st)
  else
    let totalRating := reviews.foldl (fun sum review => sum + review.rating) 0
    (Except.ok (totalRating / (reviews.length : ℚ)), st)

/-- addRide of the scan variant: no validation. -/
def addRide (newId : String) (now : Nat) (payload : RidePayload) (st : State) :
    Except String RideRecord × State :=
  let record : RideRecord :=
    { id := newId
      providerId := payload.providerId
      date := payload.date
      startTime := payload.startTime
      endTime := payload.endTime
      startLocation := payload.startLocation
      endLocation := payload.endLocation
      availableSeats := payload.availableSeats
      description := payload.description
      createdAt := now
      updatedAt := none }
  (Except.ok record, { st with rideStorage := mapInsert st.rideStorage record.id record })

/-- updateRide: merge the payload over the stored record and stamp
updatedAt; NotFound error when the id is absent. -/
def updateRide (now : Nat) (id : String) (payload : RidePayload) (st : State) :
    Except String RideRecord × State :=
  match mapLookup st.rideStorage id with
  | some record =>
    let updatedRecord : RideRecord :=
      { record with
        providerId := payload.providerId
        date := payload.date
        startTime := payload.startTime
        endTime := payload.endTime
        startLocation := payload.startLocation
        endLocation := payload.endLocation
        availableSeats := payload.availableSeats
        description := payload.description
        updatedAt := some now }
    (Except.ok updatedRecord,
      { st with rideStorage := mapInsert st.rideStorage record.id updatedRecord })
  | none => (Except.error ("Ride with id=" ++ id ++ " not found"), st)

/-- deleteRide: remove and return the record; NotFound when absent. -/
def deleteRide (id : String) (st : State) : Except String RideRecord × State :=
  let removed := mapRemove st.rideStorage id
  match removed.1 with
  | some deletedRecord => (Except.ok deletedRecord, { st with rideStorage := removed.2 })
  | none => (Except.error ("Ride with id=" ++ id ++ " not found"), st)

/-- getRide: point lookup. -/
def getRide (id : String) (st : State) : Except String RideRecord × State :=
  match mapLookup st.rideStorage id with
  | some record => (Except.ok record, st)
  | none => (Except.error ("Ride with id=" ++ id ++ " not found"), st)

/-- getAllRides: full enumeration. -/
def getAllRides (st : State) : Except String (List RideRecord) × State :=
  (Except.ok (mapValues st.rideStorage), st)

/-- searchRidesByStartLocation: case-insensitive exact-match scan. -/
def searchRidesByStartLocation (location : String) (st : State) :
    Except String (List RideRecord) × State :=
  let records := mapValues st.rideStorage
  let filteredRides := records.filter (fun ride => ride.startLocation.toLower == location.toLower)
  (Except.ok filteredRides, st)

/-- filterRidesByDateRange: inclusive lexicographic comparison on date. -/
def filterRidesByDateRange (startDate endDate : String) (st : State) :
    Except String (List RideRecord) × State :=
  let records := mapValues st.rideStorage
  let filteredRides :=
    records.filter (fun ride => decide (startDate ≤ ride.date) && decide (ride.date ≤ endDate))
  (Except.ok filteredRides, st)

/-- updateRideAvailableSeats of the scan variant: fetch, replace the one
field, stamp updatedAt, persist. -/
def updateRideAvailableSeats (now : Nat) (id : String) (newAvailableSeats : Int)
    (st : State) : Except String RideRecord × State :=
  match mapLookup st.rideStorage id with
  | some record =>
    let updatedRecord : RideRecord :=
      { record with availableSeats := newAvailableSeats, updatedAt := some now }
    (Except.ok updatedRecord,
      { st with rideStorage := mapInsert st.rideStorage record.id updatedRecord })
  | none => (Except.error ("Ride with id=" ++ id ++ " not found"), st)

/-- getRidesByProvider: exact-match scan on providerId. -/
def getRidesByProvider (providerId : String) (st : State) :
    Except String (List RideRecord) × State :=
  let rides := (mapValues st.rideStorage).filter (fun ride => ride.providerId == providerId)
  (Except.ok rides, st)

/-- searchRidesByEndLocation: case-insensitive exact-match scan. -/
def searchRidesByEndLocation (location : String) (st : State) :
    Except String (List RideRecord) × State :=
  let records := mapValues st.rideStorage
  let filteredRides := records.filter (fun ride => ride.endLocation.toLower == location.toLower)
  (Except.ok filteredRides, st)

/-- filterRidesByAvailableSeats: retains rides with at least minSeats. -/
def filterRidesByAvailableSeats (minSeats : Int) (st : State) :
    Except String (List RideRecord) × State :=
  let records := mapValues st.rideStorage
  let filteredRides := records.filter (fun ride => decide (minSeats ≤ ride.availableSeats))
  (Except.ok filteredRides, st)

/-- updateRideStartLocation of the scan variant. -/
def updateRideStartLocation (now : Nat) (id : String) (newStartLocation : String)
    (st : State) : Except String RideRecord × State :=
  match mapLookup st.rideStorage id with
  | some record =>
    let updatedRecord : RideRecord :=
      { record with startLocation := newStartLocation, updatedAt := some now }
    (Except.ok updatedRecord,
      { st with rideStorage := mapInsert st.rideStorage record.id updatedRecord })
  | none => (Except.error ("Ride with id=" ++ id ++ " not found"), st)

/-- updateRideEndLocation of the scan variant. -/
def updateRideEndLocation (now : Nat) (id : String) (newEndLocation : String)
    (st : State) : Except String RideRecord × State :=
  match mapLookup st.rideStorage id with
  | some record =>
    let updatedRecord : RideRecord :=
      { record with endLocation := newEndLocation, updatedAt := some now }
    (Except.ok updatedRecord,
      { st with rideStorage := mapInsert st.rideStorage record.id updatedRecord })
  | none => (Except.error ("Ride with id=" ++ id ++ " not found"), st)

/-- updateRideDate of the scan variant. -/
def updateRideDate (now : Nat) (id : String) (newDate : String)
    (st : State) : Except String RideRecord × State :=
  match mapLookup st.rideStorage id with
  | some record =>
    let updatedRecord : RideRecord :=
      { record with date := newDate, updatedAt := some now }
    (Except.ok updatedRecord,
      { st with rideStorage := mapInsert st.rideStorage record.id updatedRecord })
  | none => (Except.error ("Ride with id=" ++ id ++ " not found"), st)

/-- updateRideStartTime of the scan variant. -/
def updateRideStartTime (now : Nat) (id : String) (newStartTime : String)
    (st : State) : Except String RideRecord × State :=
  match mapLookup st.rideStorage id with
  | some record =>
    let updatedRecord : RideRecord :=
      { record with startTime := newStartTime, updatedAt := some now }
    (Except.ok updatedRecord,
      { st with rideStorage := mapInsert st.rideStorage record.id updatedRecord })
  | none => (Except.error ("Ride with id=" ++ id ++ " not found"), st)

/-- updateRideEndTime of the scan variant. -/
def updateRideEndTime (now : Nat) (id : String) (newEndTime : String)
    (st : State) : Except String RideRecord × State :=
  match mapLookup st.rideStorage id with
  | some record =>
    let updatedRecord : RideRecord :=
      { record with endTime := newEndTime, updatedAt := some now }
    (Except.ok updatedRecord,
      { st with rideStorage := mapInsert st.rideStorage record.id updatedRecord })
  | none => (Except.error ("Ride with id=" ++ id ++ " not found"), st)

/-- Payload carrying a record's current field values; used to state the
wrapper-equivalence claim (the generic update with all other fields
unchanged, following the spec's words). -/
def payloadOfRecord (r : RideRecord) : RidePayload :=
  { providerId := r.providerId
    date := r.date
    startTime := r.startTime
    endTime := r.endTime
    startLocation := r.startLocation
    endLocation := r.endLocation
    availableSeats := r.availableSeats
    description := r.description }

end Scan

namespace Cached

/-- RideRecord of the cached variant (src/src/index.ts): carries the
cached average-rating field. -/
structure RideRecord where
  id : String
  providerId : String
  date : String
  startTime : String
  endTime : String
  startLocation : String
  endLocation : String
  availableSeats : Int
  description : String
  createdAt : Nat
  updatedAt : Option Nat
  averageRating : Option ℚ
deriving DecidableEq

/-- The two stores of the cached variant. -/
structure State where
  rideStorage : List (String × RideRecord)
  rideReviewStorage : List (String × RideReviewRecord)
deriving DecidableEq

/-- Well-formedness of reachable states: every ride is stored under its
own id. -/
def State.wf (st : State) : Prop :=
  ∀ pr ∈ st.rideStorage, pr.2.id = pr.1

/-- updateRideAverageRating: incremental maintenance of the cached
average. The scan deriving prevTotalRatings runs on the review store as
it is when the helper is called, i.e. after addRideReview has already
inserted the new review. Silently a no-op when the ride is absent. -/
def updateRideAverageRating (rideId : String) (newRating : ℚ) (st : State) : State :=
  match mapLookup st.rideStorage rideId with
  | some record =>
    let averageRating : ℚ :=
      match record.averageRating with
      | some prevAvgRating =>
        let prevTotalRatings :=
          ((mapValues st.rideReviewStorage).filter (fun review => review.rideId == rideId)).length
        let totalRatings := prevTotalRatings + 1
        ((prevAvgRating * (prevTotalRatings : ℚ)) + newRating) / (totalRatings : ℚ)
      | none => newRating
    let updatedRecord : RideRecord := { record with averageRating := some averageRating }
    { st with rideStorage := mapInsert st.rideStorage record.id updatedRecord }
  | none => st

/-- addRideReview of the cached variant: validates the payload, inserts
the review, then triggers the average-rating maintenance. -/
def addRideReview (newId : String) (now : Nat) (payload : RideReviewPayload)
    (st : State) : Except String RideReviewRecord × State :=
  if payload.rideId = "" ∨ payload.userId = "" ∨ payload.rating < 1 ∨
      5 < payload.rating ∨ payload.comment = "" then
    (Except.error "Invalid input payload", st)
  else
    let review : RideReviewRecord :=
      { id := newId
        rideId := payload.rideId
        userId := payload.userId
        rating := payload.rating
        comment := payload.comment
        createdAt := now }
    let st1 : State :=
      { st with rideReviewStorage := mapInsert st.rideReviewStorage review.id review }
    (Except.ok review, updateRideAverageRating payload.rideId review.rating st1)

/-- getRideReviews of the cached variant. -/
def getRideReviews (rideId : String) (st : State) :
    Except String (List RideReviewRecord) × State :=
  let reviews := (mapValues st.rideReviewStorage).filter (fun review => review.rideId == rideId)
  (Except.ok reviews, st)

/-- getRideAverageRating of the cached variant: read the ride's cached
field; NoReviews when the field is empty, NotFound when the ride is
absent. -/
def getRideAverageRating (rideId : String) (st : State) : Except String ℚ × State :=
  match mapLookup st.rideStorage rideId with
  | some record =>
    match record.averageRating with
    | some avg => (Except.ok avg, st)
    | none => (Except.error "No reviews found for the ride", st)
  | none => (Except.error "Ride not found", st)

/-- addRide of the cached variant: validates every payload field for
truthiness (empty string or zero availableSeats fail). -/
def addRide (newId : String) (now : Nat) (payload : RidePayload) (st : State) :
    Except String RideRecord × State :=
  if payload.providerId = "" ∨ payload.date = "" ∨ payload.startTime = "" ∨
      payload.endTime = "" ∨ payload.startLocation = "" ∨ payload.endLocation = "" ∨
      payload.availableSeats = 0 ∨ payload.description = "" then
    (Except.error "Invalid input payload", st)
  else
    let record : RideRecord :=
      { id := newId
        providerId := payload.providerId
        date := payload.date
        startTime := payload.startTime
        endTime := payload.endTime
        startLocation := payload.startLocation
        endLocation := payload.endLocation
        availableSeats := payload.availableSeats
        description := payload.description
        createdAt := now
        updatedAt := none
        averageRating := none }
    (Except.ok record, { st with rideStorage := mapInsert st.rideStorage record.id record })

/-- updateRide of the cached variant. -/
def updateRide (now : Nat) (id : String) (payload : RidePayload) (st : State) :
    Except String RideRecord × State :=
  match mapLookup st.rideStorage id with
  | some record =>
    let updatedRecord : RideRecord :=
      { record with
        providerId := payload.providerId
        date := payload.date
        startTime := payload.startTime
        endTime := payload.endTime
        startLocation := payload.startLocation
        endLocation := payload.endLocation
        availableSeats := payload.availableSeats
        description := payload.description
        updatedAt := some now }
    (Except.ok updatedRecord,
      { st with rideStorage := mapInsert st.rideStorage record.id updatedRecord })
  | none => (Except.error ("Ride with id=" ++ id ++ " not found"), st)

/-- deleteRide of the cached variant. -/
def deleteRide (id : String) (st : State) : Except String RideRecord × State :=
  let removed := mapRemove st.rideStorage id
  match removed.1 with
  | some deletedRecord => (Except.ok deletedRecord, { st with rideStorage := removed.2 })
  | none => (Except.error ("Ride with id=" ++ id ++ " not found"), st)

/-- getRide of the cached variant. -/
def getRide (id : String) (st : State) : Except String RideRecord × State :=
  match mapLookup st.rideStorage id with
  | some record => (Except.ok record, st)
  | none => (Except.error ("Ride with id=" ++ id ++ " not found"), st)

/-- getAllRides of the cached variant. -/
def getAllRides (st : State) : Except String (List RideRecord) × State :=
  (Except.ok (mapValues st.rideStorage), st)

/-- Filter criteria of the combined filterRides; a missing field is
`none` (an absent or undefined property in the source). -/
structure FilterCriteria where
  startLocation : Option String
  endLocation : Option String
  startDate : Option String
  endDate : Option String
  minAvailableSeats : Option Int

/-- One criterion check of filterRides. A supplied empty string or zero
is falsy in the source, so it disables its check just like an absent
field does. -/
def critActiveString : Option String → Bool
  | some s => s ≠ ""
  | none => false

/-- Truthiness of the optional minAvailableSeats criterion. -/
def critActiveInt : Option Int → Bool
  | some n => n ≠ 0
  | none => false

/-- filterRides of the cached variant: AND-combined criteria over one
scan, each criterion applied only when its field is truthy. -/
def filterRides (criteria : FilterCriteria) (st : State) :
    Except String (List RideRecord) × State :=
  let records := mapValues st.rideStorage
  let filteredRides := records.filter (fun ride =>
    (if critActiveString criteria.startLocation then
      ride.startLocation.toLower == (criteria.startLocation.getD "").toLower
     else true) &&
    (if critActiveString criteria.endLocation then
      ride.endLocation.toLower == (criteria.endLocation.getD "").toLower
     else true) &&
    (if critActiveString criteria.startDate && critActiveString criteria.endDate then
      decide ((criteria.startDate.getD "") ≤ ride.date) &&
        decide (ride.date ≤ (criteria.endDate.getD ""))
     else true) &&
    (if critActiveInt criteria.minAvailableSeats then
      decide ((criteria.minAvailableSeats.getD 0) ≤ ride.availableSeats)
     else true))
  (Except.ok filteredRides, st)

/-- updateRideAvailableSeats of the cached variant: delegates to
updateRide with a payload containing only availableSeats; the source's
object spread then overrides exactly that one field of the record. -/
def updateRideAvailableSeats (now : Nat) (id : String) (newAvailableSeats : Int)
    (st : State) : Except String RideRecord × State :=
  match mapLookup st.rideStorage id with
  | some record =>
    let updatedRecord : RideRecord :=
      { record with availableSeats := newAvailableSeats, updatedAt := some now }
    (Except.ok updatedRecord,
      { st with rideStorage := mapInsert st.rideStorage record.id updatedRecord })
  | none => (Except.error ("Ride with id=" ++ id ++ " not found"), st)

/-- getRidesByProvider of the cached variant. -/
def getRidesByProvider (providerId : String) (st : State) :
    Except String (List RideRecord) × State :=
  let rides := (mapValues st.rideStorage).filter (fun ride => ride.providerId == providerId)
  (Except.ok rides, st)

end Cached

/-! Lemmas about the association-list store model. -/

theorem mapLookup_mapInsert_self {V : Type} (m : List (String × V)) (k : String) (v : V) :
    mapLookup (mapInsert m k v) k = some v := by
  induction m with
  | nil => simp [mapInsert, mapLookup]
  | cons hd t ih =>
    obtain ⟨k', v'⟩ := hd
    by_cases hk : k' = k
    · simp [mapInsert, mapLookup, hk]
    · simp [mapInsert, mapLookup, hk, ih]

theorem mapLookup_mem {V : Type} {m : List (String × V)} {k : String} {v : V}
    (h : mapLookup m k = some v) : (k, v) ∈ m := by
  induction m with
  | nil => simp [mapLookup] at h
  | cons hd t ih =>
    obtain ⟨k', v'⟩ := hd
    by_cases hk : k' = k
    · subst hk
      simp [mapLookup] at h
      subst h
      exact List.mem_cons_self _ _
    · simp [mapLookup, hk] at h
      exact List.mem_cons_of_mem _ (ih h)

theorem mapLookup_eq_none_of_not_mem_keys {V : Type} {m : List (String × V)} {k : String}
    (h : k ∉ mapKeys m) : mapLookup m k = none := by
  induction m with
  | nil => rfl
  | cons hd t ih =>
    obtain ⟨k', v'⟩ := hd
    simp only [mapKeys, List.map_cons, List.mem_cons, not_or] at h
    have hk : k' ≠ k := fun hh => h.1 hh.symm
    have ht : k ∉ mapKeys t := h.2
    simp [mapLookup, hk, ih ht]

theorem mapRemove_fst {V : Type} {m : List (String × V)} {k : String} {v : V}
    (h : mapLookup m k = some v) : (mapRemove m k).1 = some v := by
  induction m with
  | nil => simp [mapLookup] at h
  | cons hd t ih =>
    obtain ⟨k', v'⟩ := hd
    by_cases hk : k' = k
    · subst hk
      simp [mapLookup] at h
      simp [mapRemove, h]
    · simp [mapLookup, hk] at h
      simp [mapRemove, hk, ih h]

theorem mapLookup_mapRemove_self {V : Type} {m : List (String × V)} (k : String)
    (hnd : (mapKeys m).Nodup) : mapLookup (mapRemove m k).2 k = none := by
  induction m with
  | nil => rfl
  | cons hd t ih =>
    obtain ⟨k', v'⟩ := hd
    obtain ⟨h1, h2⟩ := List.nodup_cons.mp hnd
    have h1' : k' ∉ mapKeys t := h1
    by_cases hk : k' = k
    · subst hk
      simp [mapRemove]
      exact mapLookup_eq_none_of_not_mem_keys h1'
    · simp [mapRemove, hk, mapLookup, ih h2]

theorem mem_mapValues_mapInsert {V : Type} (m : List (String × V)) (k : String) (v : V) :
    v ∈ mapValues (mapInsert m k v) := by
  induction m with
  | nil => simp [mapInsert, mapValues]
  | cons hd t ih =>
    obtain ⟨k', v'⟩ := hd
    by_cases hk : k' = k
    · simp [mapInsert, mapValues, hk]
    · simp [mapInsert, mapValues, hk]
      right
      simpa [mapValues] using ih

/-! Concrete fixtures used by witnesses and counterexamples. -/

/-- A sample stored ride of the scan variant. -/
def sampleScanRide : Scan.RideRecord :=
  { id := "r1"
    providerId := "p1"
    date := "2024-01-10"
    startTime := "08:00"
    endTime := "09:00"
    startLocation := "A"
    endLocation := "B"
    availableSeats := 3
    description := "commute"
    createdAt := 0
    updatedAt := none }

/-- A sample stored ride of the cached variant, with no rating yet. -/
def sampleCachedRide : Cached.RideRecord :=
  { id := "r1"
    providerId := "p1"
    date := "2024-01-10"
    startTime := "08:00"
    endTime := "09:00"
    startLocation := "A"
    endLocation := "B"
    availableSeats := 3
    description := "commute"
    createdAt := 0
    updatedAt := none
    averageRating := none }

/-- A sample stored review for ride r1. -/
def sampleReview : RideReviewRecord :=
  { id := "v1"
    rideId := "r1"
    userId := "u1"
    rating := 5
    comment := "nice"
    createdAt := 1 }

/-- A sample fully-populated ride payload. -/
def sampleRidePayload : RidePayload :=
  { providerId := "p2"
    date := "2024-02-20"
    startTime := "10:00"
    endTime := "11:00"
    startLocation := "C"
    endLocation := "D"
    availableSeats := 2
    description := "errand" }

/-- C4: filterRidesByAvailableSeats succeeds, returns exactly the rides
with availableSeats at least the bound, and repeated calls with no
intervening mutation agree. -/
theorem filterRidesByAvailableSeats_spec (k : Int) (st : Scan.State)
    (l : List Scan.RideRecord) :
    (Scan.filterRidesByAvailableSeats k st).2 = st
    ∧ ((Scan.filterRidesByAvailableSeats k st).1 = Except.ok l →
        ∀ r : Scan.RideRecord, r ∈ l ↔ r ∈ mapValues st.rideStorage ∧ k ≤ r.availableSeats)
    ∧ Scan.filterRidesByAvailableSeats k (Scan.filterRidesByAvailableSeats k st).2
        = Scan.filterRidesByAvailableSeats k st := by
  refine ⟨rfl, ?_, rfl⟩
  intro h r
  have hl : l = (mapValues st.rideStorage).filter
      (fun ride => decide (k ≤ ride.availableSeats)) := by
    simpa [Scan.filterRidesByAvailableSeats] using h.symm
  subst hl
  simp [List.mem_filter]

/-- C4 witness: the specification of filterRidesByAvailableSeats applied
at a concrete single-ride store with bound 2. -/
theorem filterRidesByAvailableSeats_spec_witness :
    (Scan.filterRidesByAvailableSeats 2 ⟨[("r1", sampleScanRide)], []⟩).1
        = Except.ok [sampleScanRide]
    ∧ (sampleScanRide ∈ [sampleScanRide] ↔
        sampleScanRide ∈ mapValues [("r1", sampleScanRide)]
          ∧ (2 : Int) ≤ sampleScanRide.availableSeats) :=
  ⟨rfl,
   (filterRidesByAvailableSeats_spec 2 ⟨[("r1", sampleScanRide)], []⟩
      [sampleScanRide]).2.1 rfl sampleScanRide⟩

/-- C7: every read-only operation of both variants returns the store
state unchanged. -/
theorem readonly_frame_spec (st : Scan.State) (stC : Cached.State)
    (id rid loc d1 d2 pid : String) (k : Int) (crit : Cached.FilterCriteria) :
    (Scan.getRide id st).2 = st
    ∧ (Scan.getAllRides st).2 = st
    ∧ (Scan.getRideReviews rid st).2 = st
    ∧ (Scan.getRideAverageRating rid st).2 = st
    ∧ (Scan.searchRidesByStartLocation loc st).2 = st
    ∧ (Scan.searchRidesByEndLocation loc st).2 = st
    ∧ (Scan.filterRidesByDateRange d1 d2 st).2 = st
    ∧ (Scan.filterRidesByAvailableSeats k st).2 = st
    ∧ (Scan.getRidesByProvider pid st).2 = st
    ∧ (Cached.getRide id stC).2 = stC
    ∧ (Cached.getAllRides stC).2 = stC
    ∧ (Cached.getRideReviews rid stC).2 = stC
    ∧ (Cached.getRideAverageRating rid stC).2 = stC
    ∧ (Cached.filterRides crit stC).2 = stC
    ∧ (Cached.getRidesByProvider pid stC).2 = stC := by
  refine ⟨?_, rfl, rfl, ?_, rfl, rfl, rfl, rfl, rfl, ?_, rfl, rfl, ?_, rfl, rfl⟩
  · cases h : mapLookup st.rideStorage id <;> simp [Scan.getRide, h]
  · by_cases hc :
        ((mapValues st.rideReviewStorage).filter (fun review => review.rideId == rid)).length = 0
      <;> simp [Scan.getRideAverageRating, hc]
  · cases h : mapLookup stC.rideStorage id <;> simp [Cached.getRide, h]
  · cases h : mapLookup stC.rideStorage rid with
    | none => simp [Cached.getRideAverageRating, h]
    | some r => cases hr : r.averageRating <;> simp [Cached.getRideAverageRating, h, hr]

/-- C10: getRideReviews never returns an error; it returns exactly the
stored reviews whose rideId equals the argument, and the empty list when
there are none, in both variants. -/
theorem getRideReviews_total_spec (rid : String) (stS : Scan.State) (stC : Cached.State)
    (l l' : List RideReviewRecord) :
    (∀ e, (Scan.getRideReviews rid stS).1 ≠ Except.error e)
    ∧ ((Scan.getRideReviews rid stS).1 = Except.ok l →
        ∀ rv, rv ∈ l ↔ rv ∈ mapValues stS.rideReviewStorage ∧ rv.rideId = rid)
    ∧ ((∀ rv ∈ mapValues stS.rideReviewStorage, rv.rideId ≠ rid) →
        (Scan.getRideReviews rid stS).1 = Except.ok [])
    ∧ (∀ e, (Cached.getRideReviews rid stC).1 ≠ Except.error e)
    ∧ ((Cached.getRideReviews rid stC).1 = Except.ok l' →
        ∀ rv, rv ∈ l' ↔ rv ∈ mapValues stC.rideReviewStorage ∧ rv.rideId = rid)
    ∧ ((∀ rv ∈ mapValues stC.rideReviewStorage, rv.rideId ≠ rid) →
        (Cached.getRideReviews rid stC).1 = Except.ok []) := by
  refine ⟨?_, ?_, ?_, ?_, ?_, ?_⟩
  · intro e h
    simp [Scan.getRideReviews] at h
  · intro h rv
    have hl : l = (mapValues stS.rideReviewStorage).filter
        (fun review => review.rideId == rid) := by
      simpa [Scan.getRideReviews] using h.symm
    subst hl
    simp [List.mem_filter]
  · intro h
    have hnil : (mapValues stS.rideReviewStorage).filter
        (fun review => review.rideId == rid) = [] := by
      rw [List.filter_eq_nil_iff]
      intro a ha
      simpa using h a ha
    simp [Scan.getRideReviews, hnil]
  · intro e h
    simp [Cached.getRideReviews] at h
  · intro h rv
    have hl : l' = (mapValues stC.rideReviewStorage).filter
        (fun review => review.rideId == rid) := by
      simpa [Cached.getRideReviews] using h.symm
    subst hl
    simp [List.mem_filter]
  · intro h
    have hnil : (mapValues stC.rideReviewStorage).filter
        (fun review => review.rideId == rid) = [] := by
      rw [List.filter_eq_nil_iff]
      intro a ha
      simpa using h a ha
    simp [Cached.getRideReviews, hnil]

/-- C10 witness: getRideReviews applied at a concrete store holding one
review for ride r1 and queried for r1 and for an unknown ride. -/
theorem getRideReviews_total_spec_witness :
    (Scan.getRideReviews "r1" ⟨[], [("v1", sampleReview)]⟩).1 = Except.ok [sampleReview]
    ∧ (sampleReview ∈ [sampleReview] ↔
        sampleReview ∈ mapValues [("v1", sampleReview)] ∧ sampleReview.rideId = "r1")
    ∧ (Scan.getRideReviews "zzz" ⟨[], []⟩).1 = Except.ok [] :=
  ⟨rfl,
   (getRideReviews_total_spec "r1" ⟨[], [("v1", sampleReview)]⟩ ⟨[], []⟩
      [sampleReview] []).2.1 rfl sampleReview,
   (getRideReviews_total_spec "zzz" ⟨[], []⟩ ⟨[], []⟩ [] []).2.2.1
     (by simp [RideMS.mapValues])⟩

/-- C2 counterexample: the non-validating (scan) variant's addRide
accepts a payload whose every field is empty and whose availableSeats is
zero, succeeding and inserting a record instead of returning the
InvalidPayload error. -/
theorem scan_addRide_accepts_empty_payload :
    (Scan.addRide "id1" 0 ⟨"", "", "", "", "", "", 0, ""⟩ ⟨[], []⟩).1
        = Except.ok ⟨"id1", "", "", "", "", "", "", 0, "", 0, none⟩
    ∧ (Scan.addRide "id1" 0 ⟨"", "", "", "", "", "", 0, ""⟩ ⟨[], []⟩).2.rideStorage
        = [("id1", ⟨"id1", "", "", "", "", "", "", 0, "", 0, none⟩)] :=
  ⟨rfl, rfl⟩

/-- C2 (amended): in the validating (cached) variant, addRide fails with
the InvalidPayload error and inserts nothing whenever a required field is
empty or availableSeats is zero, and otherwise succeeds with the fresh
id, the creation timestamp, empty updatedAt and empty averageRating; the
non-validating (scan) variant accepts any payload without validation. -/
theorem addRide_validation_spec (newId : String) (now : Nat) (p : RidePayload)
    (st : Cached.State) (stS : Scan.State) :
    (p.providerId = "" ∨ p.date = "" ∨ p.startTime = "" ∨ p.endTime = "" ∨
        p.startLocation = "" ∨ p.endLocation = "" ∨ p.availableSeats = 0 ∨
        p.description = "" →
      Cached.addRide newId now p st = (Except.error "Invalid input payload", st))
    ∧ (p.providerId ≠ "" → p.date ≠ "" → p.startTime ≠ "" → p.endTime ≠ "" →
        p.startLocation ≠ "" → p.endLocation ≠ "" → p.availableSeats ≠ 0 →
        p.description ≠ "" →
      Cached.addRide newId now p st =
        (Except.ok ⟨newId, p.providerId, p.date, p.startTime, p.endTime,
            p.startLocation, p.endLocation, p.availableSeats, p.description,
            now, none, none⟩,
          { st with rideStorage := (mapInsert st.rideStorage newId ⟨newId,
            p.providerId, p.date, p.startTime, p.endTime, p.startLocation,
            p.endLocation, p.availableSeats, p.description, now, none, none⟩) }))
    ∧ (Scan.addRide newId now p stS).1 =
        Except.ok ⟨newId, p.providerId, p.date, p.startTime, p.endTime,
          p.startLocation, p.endLocation, p.availableSeats, p.description,
          now, none⟩ := by
  refine ⟨?_, ?_, rfl⟩
  · intro h
    unfold Cached.addRide
    rw [if_pos h]
  · intro h1 h2 h3 h4 h5 h6 h7 h8
    unfold Cached.addRide
    rw [if_neg (by simp [h1, h2, h3, h4, h5, h6, h7, h8])]

/-- C2 witness: the validating addRide applied at a fully-populated
payload and at the same payload with an emptied providerId. -/
theorem addRide_validation_spec_witness :
    Cached.addRide "n1" 5 sampleRidePayload ⟨[], []⟩
        = (Except.ok ⟨"n1", "p2", "2024-02-20", "10:00", "11:00", "C", "D", 2,
            "errand", 5, none, none⟩,
          ⟨[("n1", ⟨"n1", "p2", "2024-02-20", "10:00", "11:00", "C", "D", 2,
            "errand", 5, none, none⟩)], []⟩)
    ∧ Cached.addRide "n2" 5 { sampleRidePayload with providerId := "" } ⟨[], []⟩
        = (Except.error "Invalid input payload", ⟨[], []⟩) :=
  ⟨(addRide_validation_spec "n1" 5 sampleRidePayload ⟨[], []⟩ ⟨[], []⟩).2.1
      (by decide) (by decide) (by decide) (by decide) (by decide) (by decide)
      (by decide) (by decide),
   (addRide_validation_spec "n2" 5 { sampleRidePayload with providerId := "" }
      ⟨[], []⟩ ⟨[], []⟩).1 (Or.inl rfl)⟩

/-- C3: updateRide on a missing identifier fails with the NotFound error
and leaves both stores unchanged, and on a present identifier succeeds
with the stored record carrying the payload's field values and updatedAt
stamped, in both variants. -/
theorem updateRide_spec (t : Nat) (id : String) (p : RidePayload)
    (st : Scan.State) (stC : Cached.State) :
    (mapLookup st.rideStorage id = none →
      Scan.updateRide t id p st = (Except.error ("Ride with id=" ++ id ++ " not found"), st))
    ∧ (st.wf → ∀ r, mapLookup st.rideStorage id = some r →
        (Scan.updateRide t id p st).1 = Except.ok
            { r with
              providerId := p.providerId
              date := p.date
              startTime := p.startTime
              endTime := p.endTime
              startLocation := p.startLocation
              endLocation := p.endLocation
              availableSeats := p.availableSeats
              description := p.description
              updatedAt := some t }
        ∧ mapLookup (Scan.updateRide t id p st).2.rideStorage id = some
            { r with
              providerId := p.providerId
              date := p.date
              startTime := p.startTime
              endTime := p.endTime
              startLocation := p.startLocation
              endLocation := p.endLocation
              availableSeats := p.availableSeats
              description := p.description
              updatedAt := some t }
        ∧ (Scan.updateRide t id p st).2.rideReviewStorage = st.rideReviewStorage)
    ∧ (mapLookup stC.rideStorage id = none →
      Cached.updateRide t id p stC
        = (Except.error ("Ride with id=" ++ id ++ " not found"), stC))
    ∧ (stC.wf → ∀ r, mapLookup stC.rideStorage id = some r →
        (Cached.updateRide t id p stC).1 = Except.ok
            { r with
              providerId := p.providerId
              date := p.date
              startTime := p.startTime
              endTime := p.endTime
              startLocation := p.startLocation
              endLocation := p.endLocation
              availableSeats := p.availableSeats
              description := p.description
              updatedAt := some t }
        ∧ mapLookup (Cached.updateRide t id p stC).2.rideStorage id = some
            { r with
              providerId := p.providerId
              date := p.date
              startTime := p.startTime
              endTime := p.endTime
              startLocation := p.startLocation
              endLocation := p.endLocation
              availableSeats := p.availableSeats
              description := p.description
              updatedAt := some t }
        ∧ (Cached.updateRide t id p stC).2.rideReviewStorage = stC.rideReviewStorage) := by
  refine ⟨?_, ?_, ?_, ?_⟩
  · intro h
    simp [Scan.updateRide, h]
  · intro hwf r hr
    have hid : r.id = id := hwf (id, r) (mapLookup_mem hr)
    refine ⟨by simp [Scan.updateRide, hr], ?_, by simp [Scan.updateRide, hr]⟩
    have h2 : (Scan.updateRide t id p st).2.rideStorage
        = mapInsert st.rideStorage r.id
            { r with
              providerId := p.providerId
              date := p.date
              startTime := p.startTime
              endTime := p.endTime
              startLocation := p.startLocation
              endLocation := p.endLocation
              availableSeats := p.availableSeats
              description := p.description
              updatedAt := some t } := by
      simp [Scan.updateRide, hr]
    rw [h2, hid]
    exact mapLookup_mapInsert_self _ _ _
  · intro h
    simp [Cached.updateRide, h]
  · intro hwf r hr
    have hid : r.id = id := hwf (id, r) (mapLookup_mem hr)
    refine ⟨by simp [Cached.updateRide, hr], ?_, by simp [Cached.updateRide, hr]⟩
    have h2 : (Cached.updateRide t id p stC).2.rideStorage
        = mapInsert stC.rideStorage r.id
            { r with
              providerId := p.providerId
              date := p.date
              startTime := p.startTime
              endTime := p.endTime
              startLocation := p.startLocation
              endLocation := p.endLocation
              availableSeats := p.availableSeats
              description := p.description
              updatedAt := some t } := by
      simp [Cached.updateRide, hr]
    rw [h2, hid]
    exact mapLookup_mapInsert_self _ _ _

/-- C3 witness: updateRide applied at a single-ride store, both at the
stored identifier and at an unknown one. -/
theorem updateRide_spec_witness :
    mapLookup [("r1", sampleScanRide)] "r1" = some sampleScanRide
    ∧ (Scan.updateRide 9 "r1" sampleRidePayload ⟨[("r1", sampleScanRide)], []⟩).1
        = Except.ok ⟨"r1", "p2", "2024-02-20", "10:00", "11:00", "C", "D", 2,
            "errand", 0, some 9⟩
    ∧ mapLookup (Scan.updateRide 9 "r1" sampleRidePayload
          ⟨[("r1", sampleScanRide)], []⟩).2.rideStorage "r1"
        = some ⟨"r1", "p2", "2024-02-20", "10:00", "11:00", "C", "D", 2,
            "errand", 0, some 9⟩
    ∧ Scan.updateRide 9 "zzz" sampleRidePayload ⟨[("r1", sampleScanRide)], []⟩
        = (Except.error ("Ride with id=" ++ "zzz" ++ " not found"),
           ⟨[("r1", sampleScanRide)], []⟩) := by
  have hwf : Scan.State.wf ⟨[("r1", sampleScanRide)], []⟩ := by
    intro pr hpr
    simp at hpr
    subst hpr
    rfl
  have h := (updateRide_spec 9 "r1" sampleRidePayload
      ⟨[("r1", sampleScanRide)], []⟩ ⟨[], []⟩).2.1 hwf sampleScanRide rfl
  exact ⟨rfl, h.1, h.2.1,
    (updateRide_spec 9 "zzz" sampleRidePayload
      ⟨[("r1", sampleScanRide)], []⟩ ⟨[], []⟩).1 rfl⟩

/-- C5 counterexample: with no stored reviews at all (and no stored
rides), the cached variant's getRideAverageRating fails with the
NotFound error rather than the NoReviews error. -/
theorem cached_getRideAverageRating_absent_ride_not_noReviews :
    (Cached.getRideAverageRating "r1" ⟨[], []⟩).1 = Except.error "Ride not found"
    ∧ "Ride not found" ≠ "No reviews found for the ride" :=
  ⟨rfl, by decide⟩

/-- C5 (amended): on a rideId with zero matching stored reviews, the
scan variant's getRideAverageRating always fails with the NoReviews
error; the cached variant fails with NoReviews when the ride exists with
no cached rating, but with NotFound when the ride itself is absent. -/
theorem getRideAverageRating_noReviews_spec (rid : String)
    (stS : Scan.State) (stC : Cached.State) :
    ((mapValues stS.rideReviewStorage).filter (fun review => review.rideId == rid) = [] →
      Scan.getRideAverageRating rid stS
        = (Except.error "No reviews found for the ride", stS))
    ∧ (∀ r, mapLookup stC.rideStorage rid = some r → r.averageRating = none →
      Cached.getRideAverageRating rid stC
        = (Except.error "No reviews found for the ride", stC))
    ∧ (mapLookup stC.rideStorage rid = none →
      Cached.getRideAverageRating rid stC = (Except.error "Ride not found", stC)) := by
  refine ⟨?_, ?_, ?_⟩
  · intro h
    simp [Scan.getRideAverageRating, h]
  · intro r hr havg
    simp [Cached.getRideAverageRating, hr, havg]
  · intro h
    simp [Cached.getRideAverageRating, h]

/-- C5 witness: the amended statement applied at an empty review store
and at a stored ride with no cached rating. -/
theorem getRideAverageRating_noReviews_spec_witness :
    Scan.getRideAverageRating "r1" ⟨[], []⟩
        = (Except.error "No reviews found for the ride", ⟨[], []⟩)
    ∧ Cached.getRideAverageRating "r1" ⟨[("r1", sampleCachedRide)], []⟩
        = (Except.error "No reviews found for the ride",
           ⟨[("r1", sampleCachedRide)], []⟩) :=
  ⟨(getRideAverageRating_noReviews_spec "r1" ⟨[], []⟩ ⟨[], []⟩).1 rfl,
   (getRideAverageRating_noReviews_spec "r1" ⟨[], []⟩
      ⟨[("r1", sampleCachedRide)], []⟩).2.1 sampleCachedRide rfl rfl⟩

/-- C6: deleteRide on a present identifier succeeds returning the
removed record, a subsequent getRide on that identifier fails with the
NotFound error, and the review store — hence the result of
getRideReviews for every rideId — is untouched. -/
theorem deleteRide_spec (id : String) (st : Scan.State) (r : Scan.RideRecord)
    (hnd : (mapKeys st.rideStorage).Nodup)
    (hr : mapLookup st.rideStorage id = some r) :
    (Scan.deleteRide id st).1 = Except.ok r
    ∧ (Scan.getRide id (Scan.deleteRide id st).2).1
        = Except.error ("Ride with id=" ++ id ++ " not found")
    ∧ (Scan.deleteRide id st).2.rideReviewStorage = st.rideReviewStorage
    ∧ (∀ rid, Scan.getRideReviews rid (Scan.deleteRide id st).2
        = (Except.ok ((mapValues st.rideReviewStorage).filter
            (fun review => review.rideId == rid)), (Scan.deleteRide id st).2)) := by
  have hfst : (mapRemove st.rideStorage id).1 = some r := mapRemove_fst hr
  have hgone : mapLookup (mapRemove st.rideStorage id).2 id = none :=
    mapLookup_mapRemove_self id hnd
  refine ⟨by simp [Scan.deleteRide, hfst], ?_, by simp [Scan.deleteRide, hfst], ?_⟩
  · simp [Scan.deleteRide, hfst, Scan.getRide, hgone]
  · intro rid
    simp [Scan.deleteRide, hfst, Scan.getRideReviews]

/-- C6 witness: deleteRide applied at a store holding one ride and one
review referencing it. -/
theorem deleteRide_spec_witness :
    (mapKeys [("r1", sampleScanRide)]).Nodup
    ∧ (Scan.deleteRide "r1" ⟨[("r1", sampleScanRide)], [("v1", sampleReview)]⟩).1
        = Except.ok sampleScanRide
    ∧ (Scan.getRide "r1"
        (Scan.deleteRide "r1" ⟨[("r1", sampleScanRide)], [("v1", sampleReview)]⟩).2).1
        = Except.error ("Ride with id=" ++ "r1" ++ " not found")
    ∧ (Scan.getRideReviews "r1"
        (Scan.deleteRide "r1" ⟨[("r1", sampleScanRide)], [("v1", sampleReview)]⟩).2
        = (Except.ok [sampleReview],
           (Scan.deleteRide "r1" ⟨[("r1", sampleScanRide)], [("v1", sampleReview)]⟩).2)) := by
  have h := deleteRide_spec "r1" ⟨[("r1", sampleScanRide)], [("v1", sampleReview)]⟩
    sampleScanRide (by decide) rfl
  exact ⟨by decide, h.1, h.2.1, h.2.2.2 "r1"⟩

/-- C8: a valid review payload whose rideId matches no stored ride is
accepted: the review is inserted and returned, the ride store is left
unchanged (the cached variant's average-rating maintenance is silently a
no-op), and the review is subsequently returned by getRideReviews. -/
theorem addRideReview_missing_ride_spec (newId : String) (now : Nat)
    (p : RideReviewPayload) (stC : Cached.State) (stS : Scan.State)
    (h1 : p.rideId ≠ "") (h2 : p.userId ≠ "") (h3 : 1 ≤ p.rating)
    (h4 : p.rating ≤ 5) (h5 : p.comment ≠ "")
    (hnone : mapLookup stC.rideStorage p.rideId = none) :
    Cached.addRideReview newId now p stC
      = (Except.ok ⟨newId, p.rideId, p.userId, p.rating, p.comment, now⟩,
         { stC with rideReviewStorage := (mapInsert stC.rideReviewStorage newId
            ⟨newId, p.rideId, p.userId, p.rating, p.comment, now⟩) })
    ∧ (Cached.addRideReview newId now p stC).2.rideStorage = stC.rideStorage
    ∧ (∀ l, (Cached.getRideReviews p.rideId (Cached.addRideReview newId now p stC).2).1
        = Except.ok l →
        (⟨newId, p.rideId, p.userId, p.rating, p.comment, now⟩ : RideReviewRecord) ∈ l)
    ∧ Scan.addRideReview newId now p stS
      = (Except.ok ⟨newId, p.rideId, p.userId, p.rating, p.comment, now⟩,
         { stS with rideReviewStorage := (mapInsert stS.rideReviewStorage newId
            ⟨newId, p.rideId, p.userId, p.rating, p.comment, now⟩) }) := by
  have h3' : ¬(p.rating < 1) := not_lt.mpr h3
  have h4' : ¬(5 < p.rating) := not_lt.mpr h4
  have hvalid : ¬(p.rideId = "" ∨ p.userId = "" ∨ p.rating < 1 ∨ 5 < p.rating ∨
      p.comment = "") := by
    simp [h1, h2, h3', h4', h5]
  have key : Cached.addRideReview newId now p stC
      = (Except.ok ⟨newId, p.rideId, p.userId, p.rating, p.comment, now⟩,
         { stC with rideReviewStorage := (mapInsert stC.rideReviewStorage newId
            ⟨newId, p.rideId, p.userId, p.rating, p.comment, now⟩) }) := by
    unfold Cached.addRideReview
    rw [if_neg hvalid]
    simp [Cached.updateRideAverageRating, hnone]
  refine ⟨key, by rw [key], ?_, rfl⟩
  intro l hl
  rw [key] at hl
  have hleq : l = (mapValues (mapInsert stC.rideReviewStorage newId
      ⟨newId, p.rideId, p.userId, p.rating, p.comment, now⟩)).filter
        (fun review => review.rideId == p.rideId) := by
    simpa [Cached.getRideReviews] using hl.symm
  rw [hleq]
  exact List.mem_filter.mpr ⟨mem_mapValues_mapInsert _ _ _, by simp⟩

/-- C8 witness: a valid review for the never-existing ride "ghost" is
accepted against empty stores. -/
theorem addRideReview_missing_ride_spec_witness :
    ("ghost" : String) ≠ "" ∧ (1 : ℚ) ≤ 5
    ∧ Cached.addRideReview "v9" 7 ⟨"ghost", "u1", 5, "nice"⟩ ⟨[], []⟩
        = (Except.ok ⟨"v9", "ghost", "u1", 5, "nice", 7⟩,
           ⟨[], [("v9", ⟨"v9", "ghost", "u1", 5, "nice", 7⟩)]⟩) :=
  ⟨by decide, by norm_num,
   (addRideReview_missing_ride_spec "v9" 7 ⟨"ghost", "u1", 5, "nice"⟩ ⟨[], []⟩
      ⟨[], []⟩ (by decide) (by decide) (by norm_num) (by norm_num) (by decide)
      rfl).1⟩

/-- Payload carrying a cached-variant record's current field values;
used to state the wrapper-equivalence claim for the cached variant. -/
def Cached.payloadOfRecord (r : Cached.RideRecord) : RidePayload :=
  { providerId := r.providerId
    date := r.date
    startTime := r.startTime
    endTime := r.endTime
    startLocation := r.startLocation
    endLocation := r.endLocation
    availableSeats := r.availableSeats
    description := r.description }

/-- C9: every field-scoped update equals the generic updateRide invoked
with a payload carrying the existing record's values for all other
fields and the new value for the targeted field (for a missing ride both
fail with the NotFound error, for any payload); on an existing ride
exactly the targeted field and updatedAt change. -/
theorem field_update_equiv_spec (t : Nat) (id : String) (v : Int) (s : String)
    (p : RidePayload) (st : Scan.State) (stC : Cached.State) :
    Scan.updateRideAvailableSeats t id v st
      = Scan.updateRide t id ((mapLookup st.rideStorage id).elim p
          (fun r => { Scan.payloadOfRecord r with availableSeats := v })) st
    ∧ Scan.updateRideStartLocation t id s st
      = Scan.updateRide t id ((mapLookup st.rideStorage id).elim p
          (fun r => { Scan.payloadOfRecord r with startLocation := s })) st
    ∧ Scan.updateRideEndLocation t id s st
      = Scan.updateRide t id ((mapLookup st.rideStorage id).elim p
          (fun r => { Scan.payloadOfRecord r with endLocation := s })) st
    ∧ Scan.updateRideDate t id s st
      = Scan.updateRide t id ((mapLookup st.rideStorage id).elim p
          (fun r => { Scan.payloadOfRecord r with date := s })) st
    ∧ Scan.updateRideStartTime t id s st
      = Scan.updateRide t id ((mapLookup st.rideStorage id).elim p
          (fun r => { Scan.payloadOfRecord r with startTime := s })) st
    ∧ Scan.updateRideEndTime t id s st
      = Scan.updateRide t id ((mapLookup st.rideStorage id).elim p
          (fun r => { Scan.payloadOfRecord r with endTime := s })) st
    ∧ Cached.updateRideAvailableSeats t id v stC
      = Cached.updateRide t id ((mapLookup stC.rideStorage id).elim p
          (fun r => { Cached.payloadOfRecord r with availableSeats := v })) stC
    ∧ (∀ r, mapLookup st.rideStorage id = some r →
        Scan.updateRideAvailableSeats t id v st
          = (Except.ok { r with availableSeats := v, updatedAt := some t },
             { st with rideStorage := (mapInsert st.rideStorage r.id
                { r with availableSeats := v, updatedAt := some t }) }))
    ∧ (mapLookup st.rideStorage id = none →
        (Scan.updateRideAvailableSeats t id v st).1
            = Except.error ("Ride with id=" ++ id ++ " not found")
        ∧ (Scan.updateRide t id p st).1
            = Except.error ("Ride with id=" ++ id ++ " not found")) := by
  refine ⟨?_, ?_, ?_, ?_, ?_, ?_, ?_, ?_, ?_⟩
  · cases h : mapLookup st.rideStorage id <;>
      simp [Scan.updateRideAvailableSeats, Scan.updateRide, Scan.payloadOfRecord, h]
  · cases h : mapLookup st.rideStorage id <;>
      simp [Scan.updateRideStartLocation, Scan.updateRide, Scan.payloadOfRecord, h]
  · cases h : mapLookup st.rideStorage id <;>
      simp [Scan.updateRideEndLocation, Scan.updateRide, Scan.payloadOfRecord, h]
  · cases h : mapLookup st.rideStorage id <;>
      simp [Scan.updateRideDate, Scan.updateRide, Scan.payloadOfRecord, h]
  · cases h : mapLookup st.rideStorage id <;>
      simp [Scan.updateRideStartTime, Scan.updateRide, Scan.payloadOfRecord, h]
  · cases h : mapLookup st.rideStorage id <;>
      simp [Scan.updateRideEndTime, Scan.updateRide, Scan.payloadOfRecord, h]
  · cases h : mapLookup stC.rideStorage id <;>
      simp [Cached.updateRideAvailableSeats, Cached.updateRide, Cached.payloadOfRecord, h]
  · intro r hr
    simp [Scan.updateRideAvailableSeats, hr]
  · intro h
    exact ⟨by simp [Scan.updateRideAvailableSeats, h], by simp [Scan.updateRide, h]⟩

/-- C9 witness: the wrapper equivalence applied at a concrete
single-ride store, both at the stored identifier and at a missing one. -/
theorem field_update_equiv_spec_witness :
    Scan.updateRideAvailableSeats 4 "r1" 7 ⟨[("r1", sampleScanRide)], []⟩
      = Scan.updateRide 4 "r1"
          ((mapLookup [("r1", sampleScanRide)] "r1").elim sampleRidePayload
            (fun r => { Scan.payloadOfRecord r with availableSeats := 7 }))
          ⟨[("r1", sampleScanRide)], []⟩
    ∧ mapLookup [("r1", sampleScanRide)] "r1" = some sampleScanRide
    ∧ Scan.updateRideAvailableSeats 4 "r1" 7 ⟨[("r1", sampleScanRide)], []⟩
      = (Except.ok { sampleScanRide with availableSeats := 7, updatedAt := some 4 },
         ⟨[("r1", { sampleScanRide with availableSeats := 7, updatedAt := some 4 })], []⟩)
    ∧ (Scan.updateRideAvailableSeats 4 "zzz" 7 ⟨[("r1", sampleScanRide)], []⟩).1
        = Except.error ("Ride with id=" ++ "zzz" ++ " not found") := by
  refine ⟨(field_update_equiv_spec 4 "r1" 7 "x" sampleRidePayload
      ⟨[("r1", sampleScanRide)], []⟩ ⟨[], []⟩).1, rfl, ?_, ?_⟩
  · exact (field_update_equiv_spec 4 "r1" 7 "x" sampleRidePayload
      ⟨[("r1", sampleScanRide)], []⟩ ⟨[], []⟩).2.2.2.2.2.2.2.1 sampleScanRide rfl
  · exact ((field_update_equiv_spec 4 "zzz" 7 "x" sampleRidePayload
      ⟨[("r1", sampleScanRide)], []⟩ ⟨[], []⟩).2.2.2.2.2.2.2.2 rfl).1

/-- Initial state of the C1 trace: one stored ride r1 with no rating
yet, no reviews. -/
def traceState0 : Cached.State := ⟨[("r1", sampleCachedRide)], []⟩

/-- State of the cached variant after submitting reviews rated 5, 3, 4
for ride r1 in that order. -/
def traceState3 : Cached.State :=
  (Cached.addRideReview "v3" 3 ⟨"r1", "u1", 4, "ok"⟩
    (Cached.addRideReview "v2" 2 ⟨"r1", "u1", 3, "ok"⟩
      (Cached.addRideReview "v1" 1 ⟨"r1", "u1", 5, "ok"⟩ traceState0).2).2).2

/-- The same three reviews as stored records, in insertion order. -/
def traceReviews : List (String × RideReviewRecord) :=
  [("v1", ⟨"v1", "r1", "u1", 5, "ok", 1⟩),
   ("v2", ⟨"v2", "r1", "u1", 3, "ok", 2⟩),
   ("v3", ⟨"v3", "r1", "u1", 4, "ok", 3⟩)]

/-- C1: after submitting reviews rated 5, 3, 4 for an existing ride, the
cached variant's stored averageRating (and hence its
getRideAverageRating) is 17/4 = 4.25, not the arithmetic mean 4: the
incremental maintenance derives prevTotalRatings from a scan run after
the new review was already inserted. The scan variant's
getRideAverageRating returns the true mean 4 for the same reviews in
either insertion order. -/
theorem cached_averageRating_diverges_from_mean :
    (mapLookup traceState3.rideStorage "r1").map Cached.RideRecord.averageRating
        = some (some (17 / 4 : ℚ))
    ∧ (Cached.getRideAverageRating "r1" traceState3).1 = Except.ok (17 / 4 : ℚ)
    ∧ (Scan.getRideAverageRating "r1" ⟨[], traceReviews⟩).1 = Except.ok (4 : ℚ)
    ∧ (Scan.getRideAverageRating "r1" ⟨[], traceReviews.reverse⟩).1 = Except.ok (4 : ℚ)
    ∧ (17 / 4 : ℚ) ≠ 4 := by
  have hc1 : ¬(("r1" : String) = "" ∨ ("u1" : String) = "" ∨ (5 : ℚ) < 1 ∨
      5 < (5 : ℚ) ∨ ("ok" : String) = "") := by
    push_neg
    refine ⟨by decide, by decide, by norm_num, by norm_num, by decide⟩
  have hc2 : ¬(("r1" : String) = "" ∨ ("u1" : String) = "" ∨ (3 : ℚ) < 1 ∨
      5 < (3 : ℚ) ∨ ("ok" : String) = "") := by
    push_neg
    refine ⟨by decide, by decide, by norm_num, by norm_num, by decide⟩
  have hc3 : ¬(("r1" : String) = "" ∨ ("u1" : String) = "" ∨ (4 : ℚ) < 1 ∨
      5 < (4 : ℚ) ∨ ("ok" : String) = "") := by
    push_neg
    refine ⟨by decide, by decide, by norm_num, by norm_num, by decide⟩
  have e1 : (Cached.addRideReview "v1" 1 ⟨"r1", "u1", 5, "ok"⟩ traceState0).2
      = ⟨[("r1", { sampleCachedRide with averageRating := some (5 : ℚ) })],
         [("v1", ⟨"v1", "r1", "u1", 5, "ok", 1⟩)]⟩ := by
    unfold Cached.addRideReview
    rw [if_neg hc1]
    unfold Cached.updateRideAverageRating
    simp [traceState0, mapLookup, mapInsert, mapValues, sampleCachedRide]
  have e2 : (Cached.addRideReview "v2" 2 ⟨"r1", "u1", 3, "ok"⟩
        ⟨[("r1", { sampleCachedRide with averageRating := some (5 : ℚ) })],
         [("v1", ⟨"v1", "r1", "u1", 5, "ok", 1⟩)]⟩).2
      = ⟨[("r1", { sampleCachedRide with averageRating := some (13 / 3 : ℚ) })],
         [("v1", ⟨"v1", "r1", "u1", 5, "ok", 1⟩),
          ("v2", ⟨"v2", "r1", "u1", 3, "ok", 2⟩)]⟩ := by
    unfold Cached.addRideReview
    rw [if_neg hc2]
    unfold Cached.updateRideAverageRating
    simp [mapLookup, mapInsert, mapValues, sampleCachedRide]
    norm_num
  have e3 : (Cached.addRideReview "v3" 3 ⟨"r1", "u1", 4, "ok"⟩
        ⟨[("r1", { sampleCachedRide with averageRating := some (13 / 3 : ℚ) })],
         [("v1", ⟨"v1", "r1", "u1", 5, "ok", 1⟩),
          ("v2", ⟨"v2", "r1", "u1", 3, "ok", 2⟩)]⟩).2
      = ⟨[("r1", { sampleCachedRide with averageRating := some (17 / 4 : ℚ) })],
         [("v1", ⟨"v1", "r1", "u1", 5, "ok", 1⟩),
          ("v2", ⟨"v2", "r1", "u1", 3, "ok", 2⟩),
          ("v3", ⟨"v3", "r1", "u1", 4, "ok", 3⟩)]⟩ := by
    unfold Cached.addRideReview
    rw [if_neg hc3]
    unfold Cached.updateRideAverageRating
    simp [mapLookup, mapInsert, mapValues, sampleCachedRide]
    norm_num
  have hmem : traceState3.rideStorage
      = [("r1", { sampleCachedRide with averageRating := some (17 / 4 : ℚ) })] := by
    unfold traceState3
    rw [e1, e2, e3]
  refine ⟨?_, ?_, ?_, ?_, by norm_num⟩
  · rw [hmem]
    rfl
  · unfold Cached.getRideAverageRating
    rw [hmem]
    rfl
  · simp [Scan.getRideAverageRating, traceReviews, mapValues]
    norm_num
  · simp [Scan.getRideAverageRating, traceReviews, mapValues]
    norm_num

end RideMS
